import Mathlib

/-!
Verification of the order-synchronization subsystem of the protect-plus
dashboard (Next.js / MongoDB / Shopify).  The TypeScript sources under
`src/lib/shopify.ts`, `src/lib/orders.ts`, `src/app/api/orders/route.ts` and
`src/app/api/webhooks/...` are shallowly embedded below: pure helpers become
Lean functions, the MongoDB collections become lists of typed documents with
explicit `updateOne`/`$set` semantics, network and clock inputs become
explicit oracle parameters, and the route handlers become functions from
those inputs to an outcome record (response fields plus the writes
performed).
-/

set_option maxRecDepth 8192

namespace ProtectPlus

/-- `shop_money` sub-object of a price set (decimal-string amount). -/
structure ShopMoney where
  amount : String
  currency_code : String
deriving DecidableEq

/-- `total_shipping_price_set` shape: an optional `shop_money` object. -/
structure PriceSet where
  shop_money : Option ShopMoney
deriving DecidableEq

/-- `OrderShippingAddress` from `src/types/order.ts`: every field optional. -/
structure OrderShippingAddress where
  first_name : Option String
  last_name : Option String
  address1 : Option String
  address2 : Option String
  city : Option String
  province : Option String
  country : Option String
  zip : Option String
deriving DecidableEq

/-- `OrderLineItem` from `src/types/order.ts`. -/
structure OrderLineItem where
  id : String
  title : String
  quantity : Nat
  price : String
  sku : Option String
deriving DecidableEq

/-- `customer` sub-object of an order. -/
structure OrderCustomer where
  id : String
  email : Option String
  first_name : Option String
  last_name : Option String
deriving DecidableEq

/-- The normalized `Order` type from `src/types/order.ts` (the `_id` Mongo
field is omitted; documents are keyed by the natural key `id`). -/
structure Order where
  id : String
  order_number : Nat
  email : Option String
  created_at : String
  updated_at : String
  total_price : String
  subtotal_price : String
  total_tax : String
  total_shipping_price_set : Option PriceSet
  shipping_address : Option OrderShippingAddress
  line_items : List OrderLineItem
  financial_status : Option String
  fulfillment_status : Option String
  currency : Option String
  customer : Option OrderCustomer
deriving DecidableEq

/-- A document of the `orders` collection as written by the sync paths:
the normalized order fields plus the sync bookkeeping fields that the
`$set` operations add (`syncStatus`, `syncedAt`, `syncError`). -/
structure StoredOrder where
  order : Order
  syncStatus : Option String
  syncedAt : Option String
  syncError : Option String
deriving DecidableEq

/-- MongoDB `updateOne({id: key}, {$set: doc}, {upsert: true})` where the
`$set` document covers every tracked field: replace the first document whose
`id` matches, or append the document when none matches. -/
def updateOneUpsert : List StoredOrder → String → StoredOrder → List StoredOrder
  | [], _, doc => [doc]
  | d :: rest, key, doc =>
    if d.order.id = key then doc :: rest
    else d :: updateOneUpsert rest key doc

/-- The `$set` document used by both the incremental-sync batch loop and the
bulk-finalization batch loop in `src/app/api/orders/route.ts`
(`{...order, syncStatus: "success", syncedAt: now, syncError: undefined}`). -/
def syncUpsertDoc (order : Order) (now : String) : StoredOrder :=
  { order := order
    syncStatus := some "success"
    syncedAt := some now
    syncError := none }

/-- One iteration of the sync batch write: `updateOne` keyed by `order.id`
with the sync `$set` document, `upsert: true`. -/
def syncUpsertOp (db : List StoredOrder) (order : Order) (now : String) :
    List StoredOrder :=
  updateOneUpsert db order.id (syncUpsertDoc order now)

/-- `countOrdersSinceDate` loop body (`src/lib/shopify.ts`).  The upstream
order API is modelled as the sequence of pages it returns for the query
(`pages`); `fetchOrdersFromShopify` returns page `i` together with
`hasNextPage` = "a page follows".  The loop runs while
`hasNextPage && count < threshold`, adds the page length, and returns early
once `count >= threshold`. -/
def countOrdersLoop (threshold : Nat) : List (List Order) → Nat → Nat
  | [], count => count
  | page :: rest, count =>
    if count < threshold then
      let count' := count + page.length
      if threshold ≤ count' then count'
      else countOrdersLoop threshold rest count'
    else count

/-- `countOrdersSinceDate(sinceDate, threshold = 100)` from
`src/lib/shopify.ts`, as a function of the upstream page sequence for the
`updated_at:>=sinceDate` query. -/
def countOrdersSinceDate (pages : List (List Order)) (threshold : Nat := 100) :
    Nat :=
  countOrdersLoop threshold pages 0

/-- The true number of matching upstream orders: the total over all pages. -/
def trueCount (pages : List (List Order)) : Nat :=
  (pages.map List.length).sum

/-- `fetchOrdersIncremental` accumulation loop from `src/lib/shopify.ts`:
follow the cursor through every page, stopping after a page if 10000 orders
have accumulated (safety limit). -/
def fetchIncrementalLoop : List (List Order) → List Order → List Order
  | [], acc => acc
  | page :: rest, acc =>
    let acc' := acc ++ page
    if 10000 ≤ acc'.length then acc'
    else fetchIncrementalLoop rest acc'

/-- `fetchOrdersIncremental(sinceDate)` over the modelled page sequence. -/
def fetchOrdersIncremental (pages : List (List Order)) : List Order :=
  fetchIncrementalLoop pages []

/-! ### JavaScript value helpers

The webhook transform relies on JavaScript truthiness: `undefined` and the
empty string are falsy, so `a || d` replaces both by the default. -/

/-- JavaScript `a || d` for an optional string. -/
def jsOrStr : Option String → String → String
  | some s, d => if s = "" then d else s
  | none, d => d

/-- JavaScript `a || undefined` for an optional string. -/
def jsOrU : Option String → Option String
  | some s => if s = "" then none else some s
  | none => none

/-- JavaScript `toUpperCase` on one ASCII character. -/
def asciiUpperChar (c : Char) : Char :=
  if 'a' ≤ c ∧ c ≤ 'z' then Char.ofNat (c.toNat - 32) else c

/-- JavaScript `s.toUpperCase()` on the ASCII status strings handled here. -/
def asciiUpper (s : String) : String :=
  String.mk (s.data.map asciiUpperChar)

/-- JavaScript `toLowerCase` on one ASCII character. -/
def asciiLowerChar (c : Char) : Char :=
  if 'A' ≤ c ∧ c ≤ 'Z' then Char.ofNat (c.toNat + 32) else c

/-- JavaScript `s.toLowerCase()` on the ASCII status strings handled here. -/
def asciiLower (s : String) : String :=
  String.mk (s.data.map asciiLowerChar)

/-- JavaScript `s.replace(pat, "")` for a literal pattern: remove the first
occurrence only. -/
def removeFirst (s pat : String) : String :=
  match s.splitOn pat with
  | [] => s
  | [x] => x
  | x :: y :: rest => x ++ String.intercalate pat (y :: rest)

/-- JavaScript `parseInt` restricted to the strings this code feeds it: the
value of the leading decimal digits, `NaN` (modelled `none`) otherwise. -/
def parseIntLead (s : String) : Option Nat :=
  let ds := s.toList.takeWhile Char.isDigit
  if ds.isEmpty then none
  else some (ds.foldl (fun n c => 10 * n + (c.toNat - 48)) 0)

/-! ### Webhook payloads (`src/lib/shopify.ts` REST webhook shapes)

Numeric JSON ids (`id?: number | string`) are modelled by their decimal
string rendering (`id?.toString()`); a JSON key that is absent and a key
that is `null` are both modelled as `none`. -/

/-- `WebhookLineItem` from `src/lib/shopify.ts`. -/
structure WebhookLineItem where
  id : Option String
  title : Option String
  quantity : Option Nat
  price : Option String
  sku : Option String
deriving DecidableEq

/-- `WebhookCustomer` from `src/lib/shopify.ts`. -/
structure WebhookCustomer where
  id : Option String
  email : Option String
  first_name : Option String
  last_name : Option String
deriving DecidableEq

/-- `shop_money` of `WebhookShippingPriceSet`: both fields optional. -/
structure WebhookShopMoney where
  amount : Option String
  currency_code : Option String
deriving DecidableEq

/-- `WebhookShippingPriceSet` from `src/lib/shopify.ts`. -/
structure WebhookShippingPriceSet where
  shop_money : Option WebhookShopMoney
deriving DecidableEq

/-- `WebhookOrder` from `src/lib/shopify.ts`: the raw platform-native order
payload carried by an inbound webhook (every field optional). -/
structure WebhookOrder where
  id : Option String
  name : Option String
  email : Option String
  created_at : Option String
  updated_at : Option String
  total_price : Option String
  subtotal_price : Option String
  total_tax : Option String
  total_shipping_price_set : Option WebhookShippingPriceSet
  shipping_address : Option OrderShippingAddress
  line_items : Option (List WebhookLineItem)
  financial_status : Option String
  fulfillment_status : Option String
  currency : Option String
  customer : Option WebhookCustomer
deriving DecidableEq

/-- `transformWebhookOrderToOrder` from `src/lib/shopify.ts`.  `now` models
the `new Date().toISOString()` fallbacks taken inside the function. -/
def transformWebhookOrderToOrder (now : String) (w : WebhookOrder) : Order :=
  { id := jsOrStr w.id ""
    order_number :=
      (parseIntLead (jsOrStr (w.name.map (fun n => removeFirst n "#")) "0")).getD 0
    email := jsOrU w.email
    created_at := jsOrStr w.created_at now
    updated_at := jsOrStr w.updated_at now
    total_price := jsOrStr w.total_price "0"
    subtotal_price := jsOrStr w.subtotal_price "0"
    total_tax := jsOrStr w.total_tax "0"
    total_shipping_price_set := w.total_shipping_price_set.map (fun ps =>
      { shop_money := some
          { amount := jsOrStr (ps.shop_money.bind (fun m => m.amount)) "0"
            currency_code :=
              jsOrStr (ps.shop_money.bind (fun m => m.currency_code)) "USD" } })
    shipping_address := w.shipping_address.map (fun a =>
      { first_name := jsOrU a.first_name
        last_name := jsOrU a.last_name
        address1 := jsOrU a.address1
        address2 := jsOrU a.address2
        city := jsOrU a.city
        province := jsOrU a.province
        country := jsOrU a.country
        zip := jsOrU a.zip })
    line_items := (w.line_items.getD []).map (fun item =>
      { id := jsOrStr item.id ""
        title := jsOrStr item.title ""
        quantity := item.quantity.getD 0
        price := jsOrStr item.price "0"
        sku := jsOrU item.sku })
    financial_status := jsOrU w.financial_status
    fulfillment_status := jsOrU w.fulfillment_status
    currency := some (jsOrStr w.currency "USD")
    customer := w.customer.map (fun c =>
      { id := jsOrStr c.id ""
        email := jsOrU c.email
        first_name := jsOrU c.first_name
        last_name := jsOrU c.last_name }) }

/-- `verifyWebhookSignature` from `src/lib/shopify.ts`, parameterized by the
keyed-hash primitive `hmac secret body` (base64-encoded HMAC-SHA256 of the
raw body under the secret). -/
def verifyWebhookSignature (hmac : String → String → String)
    (body signature secret : String) : Bool :=
  hmac secret body = signature

/-! ### Webhook route handlers

`POST /api/webhooks/orders` (`src/app/api/webhooks/orders/route.ts`) upserts
the *raw parsed payload* (`const order: Order = JSON.parse(body)`), so its
collection is modelled as raw webhook documents; only the keys present in
the payload are `$set`.  `POST /api/webhooks/orders/update`
(`src/app/api/webhooks/orders/update/route.ts`) transforms the payload into
the normalized `Order` shape first and `$set`s every normalized field. -/

/-- HTTP response of a webhook route (status code and `success` flag). -/
structure WebhookResponse where
  httpStatus : Nat
  success : Bool
deriving DecidableEq

/-- Merge of an optional field under `$set`: a key present in the update
document overwrites, an absent key leaves the stored value. -/
def mergeField (new old : Option α) : Option α :=
  match new with
  | some v => some v
  | none => old

/-- `$set` of the raw webhook payload (`{...order, updated_at: now}`) onto
an existing raw document: present keys overwrite, absent keys are kept,
`updated_at` is always overwritten with the receipt time. -/
def rawSetMerge (old w : WebhookOrder) (now : String) : WebhookOrder :=
  { id := mergeField w.id old.id
    name := mergeField w.name old.name
    email := mergeField w.email old.email
    created_at := mergeField w.created_at old.created_at
    updated_at := some now
    total_price := mergeField w.total_price old.total_price
    subtotal_price := mergeField w.subtotal_price old.subtotal_price
    total_tax := mergeField w.total_tax old.total_tax
    total_shipping_price_set :=
      mergeField w.total_shipping_price_set old.total_shipping_price_set
    shipping_address := mergeField w.shipping_address old.shipping_address
    line_items := mergeField w.line_items old.line_items
    financial_status := mergeField w.financial_status old.financial_status
    fulfillment_status :=
      mergeField w.fulfillment_status old.fulfillment_status
    currency := mergeField w.currency old.currency
    customer := mergeField w.customer old.customer }

/-- `updateOne({id: order.id}, {$set: {...order, updated_at: now}},
{upsert: true})` of the raw webhook payload. -/
def rawUpdateOne : List WebhookOrder → WebhookOrder → String → List WebhookOrder
  | [], w, now => [{ w with updated_at := some now }]
  | d :: rest, w, now =>
    if d.id = w.id then rawSetMerge d w now :: rest
    else d :: rawUpdateOne rest w now

/-- Outcome of `POST /api/webhooks/orders`: response plus the raw `orders`
collection after the request. -/
structure RawWebhookOutcome where
  response : WebhookResponse
  db : List WebhookOrder
deriving DecidableEq

/-- `POST` handler of `src/app/api/webhooks/orders/route.ts`.  `hmac` is the
keyed-hash primitive, `secret` the `SHOPIFY_WEBHOOK_SECRET` environment
value, `parsed` the result of `JSON.parse(body)` (`none` = parse throws,
caught as a 500), `signature` the `x-shopify-hmac-sha256` header. -/
def webhookOrdersPOST (hmac : String → String → String)
    (secret : Option String) (body : String) (parsed : Option WebhookOrder)
    (signature : Option String) (db : List WebhookOrder) (now : String) :
    RawWebhookOutcome :=
  match signature with
  | none => { response := { httpStatus := 401, success := false }, db := db }
  | some sig =>
    match secret with
    | none => { response := { httpStatus := 500, success := false }, db := db }
    | some sec =>
      if verifyWebhookSignature hmac body sig sec then
        match parsed with
        | none =>
          { response := { httpStatus := 500, success := false }, db := db }
        | some w =>
          { response := { httpStatus := 200, success := true }
            db := rawUpdateOne db w now }
      else
        { response := { httpStatus := 401, success := false }, db := db }

/-- The `$set` document of the `/update` webhook upsert
(`{...order, updated_at: now, syncStatus: "success", syncedAt: now,
syncError: undefined}`) applied at key `order.id`. -/
def webhookUpdateUpsertOp (db : List StoredOrder) (order : Order)
    (now : String) : List StoredOrder :=
  updateOneUpsert db order.id
    { order := { order with updated_at := now }
      syncStatus := some "success"
      syncedAt := some now
      syncError := none }

/-- Outcome of `POST /api/webhooks/orders/update`: response plus the
normalized `orders` collection after the request. -/
structure UpdateWebhookOutcome where
  response : WebhookResponse
  db : List StoredOrder
deriving DecidableEq

/-- `POST` handler of `src/app/api/webhooks/orders/update/route.ts`. -/
def webhookOrdersUpdatePOST (hmac : String → String → String)
    (secret : Option String) (body : String) (parsed : Option WebhookOrder)
    (signature : Option String) (db : List StoredOrder) (now : String) :
    UpdateWebhookOutcome :=
  match signature with
  | none => { response := { httpStatus := 401, success := false }, db := db }
  | some sig =>
    match secret with
    | none => { response := { httpStatus := 500, success := false }, db := db }
    | some sec =>
      if verifyWebhookSignature hmac body sig sec then
        match parsed with
        | none =>
          { response := { httpStatus := 500, success := false }, db := db }
        | some w =>
          { response := { httpStatus := 200, success := true }
            db := webhookUpdateUpsertOp db (transformWebhookOrderToOrder now w) now }
      else
        { response := { httpStatus := 401, success := false }, db := db }

/-! ### Sync state store (`src/lib/orders.ts`)

The `sync_state` singleton document, the 60-second in-process cache around
it, and `updateBulkSyncState`'s partial `$set`.  A `Partial<BulkSyncState>`
argument is modelled by `BulkStatePatch`: for `operationId` the call sites
either omit the key or pass a value that may itself be `undefined`
(serialized as `null`, i.e. cleared), hence `Option (Option String)`; for
`status` and `synced` the call sites either omit the key or pass a value. -/

/-- The `status` union of `BulkSyncState`. -/
inductive SyncStatus
  | idle
  | pending
  | completed
  | failed
  | canceled
deriving DecidableEq

/-- The persisted `sync_state` document (the constant `_id` is omitted). -/
structure BulkStateDoc where
  status : SyncStatus
  operationId : Option String
  updatedAt : String
  synced : Option Nat
deriving DecidableEq

/-- A `Partial<BulkSyncState>` as passed by the call sites (see above). -/
structure BulkStatePatch where
  status : Option SyncStatus
  operationId : Option (Option String)
  synced : Option Nat
deriving DecidableEq

/-- Module-level cache `cachedBulkState` / `cachedBulkStateAt`. -/
structure BulkStateCache where
  cachedBulkState : Option BulkStateDoc
  cachedBulkStateAt : Nat
deriving DecidableEq

/-- `new Date(0).toISOString()` default used when no document exists. -/
def defaultBulkState : BulkStateDoc :=
  { status := .idle
    operationId := none
    updatedAt := "1970-01-01T00:00:00.000Z"
    synced := none }

/-- `BULK_STATE_TTL_MS` from `src/lib/orders.ts`. -/
def BULK_STATE_TTL_MS : Nat := 60000

/-- The cache-miss tail of `getBulkSyncState`: read the document (or the
idle default) and refresh the cache. -/
def readBulkStateFromDb (doc : Option BulkStateDoc) (nowMs : Nat) :
    BulkStateDoc × BulkStateCache :=
  let state := doc.getD defaultBulkState
  (state, { cachedBulkState := some state, cachedBulkStateAt := nowMs })

/-- `getBulkSyncState` from `src/lib/orders.ts`: serve from the cache while
it is younger than the TTL, otherwise re-read the document. -/
def getBulkSyncState (cache : BulkStateCache) (doc : Option BulkStateDoc)
    (nowMs : Nat) : BulkStateDoc × BulkStateCache :=
  match cache.cachedBulkState with
  | some s =>
    if nowMs - cache.cachedBulkStateAt < BULK_STATE_TTL_MS then (s, cache)
    else readBulkStateFromDb doc nowMs
  | none => readBulkStateFromDb doc nowMs

/-- The in-memory object `newState = {_id, status: "idle", updatedAt: now,
...partialState}` built by `updateBulkSyncState`: a key the patch omits is
absent, so reading it yields `undefined` (`none`). -/
def newStateObj (p : BulkStatePatch) (nowIso : String) : BulkStateDoc :=
  { status := p.status.getD .idle
    operationId := p.operationId.join
    updatedAt := nowIso
    synced := p.synced }

/-- `$set` of `newState` onto the persisted document: keys present in
`newState` are written (an explicit `undefined` value clears the field),
keys the patch omits leave the stored field unchanged. -/
def applyBulkStateSet (doc : Option BulkStateDoc) (p : BulkStatePatch)
    (nowIso : String) : BulkStateDoc :=
  match doc with
  | none => newStateObj p nowIso
  | some d =>
    { status := p.status.getD .idle
      operationId :=
        match p.operationId with
        | some v => v
        | none => d.operationId
      updatedAt := nowIso
      synced :=
        match p.synced with
        | some n => some n
        | none => d.synced }

/-- `updateBulkSyncState` from `src/lib/orders.ts`: `$set` the patch onto
the document and replace the cache with the in-memory `newState`. -/
def updateBulkSyncState (doc : Option BulkStateDoc) (p : BulkStatePatch)
    (nowIso : String) (nowMs : Nat) : Option BulkStateDoc × BulkStateCache :=
  (some (applyBulkStateSet doc p nowIso),
   { cachedBulkState := some (newStateObj p nowIso), cachedBulkStateAt := nowMs })

/-! ### Order repository helpers used by the sync handler -/

/-- `getUnfulfilledOrders` from `src/lib/orders.ts`: documents whose
`fulfillment_status` is absent or differs from `"fulfilled"`, limited to
1000. -/
def getUnfulfilledOrders (db : List StoredOrder) : List StoredOrder :=
  (db.filter (fun d => decide (d.order.fulfillment_status ≠ some "fulfilled"))).take 1000

/-- `Map.set` on the insertion-ordered order map used for deduplication:
an existing key keeps its position and takes the new value. -/
def mapSet : List (String × Order) → String → Order → List (String × Order)
  | [], k, v => [(k, v)]
  | (k', v') :: rest, k, v =>
    if k' = k then (k', v) :: rest
    else (k', v') :: mapSet rest k v

/-- Deduplication by `id` via the `Map` in `src/app/api/orders/route.ts`:
later entries win, iteration order is first-insertion order. -/
def dedupById (orders : List Order) : List Order :=
  (orders.foldl (fun m o => mapSet m o.id o) []).map Prod.snd

/-- Lexicographic (codepoint) order on character lists: the order MongoDB
uses for string comparisons (`$gte`, `sort`) on the ISO timestamp strings
this system stores, and the order of JavaScript `<`/`localeCompare` on
them. -/
def charListLt : List Char → List Char → Bool
  | [], [] => false
  | [], _ :: _ => true
  | _ :: _, [] => false
  | a :: as, b :: bs =>
    if a.toNat < b.toNat then true
    else if b.toNat < a.toNat then false
    else charListLt as bs

/-- `a <= b` in the string order above. -/
def strLe (a b : String) : Bool :=
  !(charListLt b.data a.data)

/-- One present-or-absent field of a `JSON.stringify` image (`undefined`
fields are dropped by `JSON.stringify`). -/
def optField (k : String) : Option String → List (String × String)
  | some v => [(k, v)]
  | none => []

/-- `JSON.stringify(shippingAddress || {})` compared for equality: the
present fields in construction order. -/
def shippingJson : Option OrderShippingAddress → List (String × String)
  | none => []
  | some a =>
    optField "first_name" a.first_name ++ optField "last_name" a.last_name ++
    optField "address1" a.address1 ++ optField "address2" a.address2 ++
    optField "city" a.city ++ optField "province" a.province ++
    optField "country" a.country ++ optField "zip" a.zip

/-- `JSON.stringify(customer || {})` compared for equality. -/
def customerJson : Option OrderCustomer → List (String × String)
  | none => []
  | some c =>
    ("id", c.id) :: optField "email" c.email ++
    optField "first_name" c.first_name ++ optField "last_name" c.last_name

/-- `JSON.stringify` image of one line item. -/
def lineItemJson (it : OrderLineItem) :
    String × String × Nat × String × Option String :=
  (it.id, it.title, it.quantity, it.price, it.sku)

/-- `hasOrderChanged` from `src/app/api/orders/route.ts`: field-by-field
comparison of the significant fields, then JSON comparison of shipping
address, line items and customer. -/
def hasOrderChanged (n e : Order) : Bool :=
  decide (n.updated_at ≠ e.updated_at) ||
  decide (n.financial_status ≠ e.financial_status) ||
  decide (n.fulfillment_status ≠ e.fulfillment_status) ||
  decide (n.total_price ≠ e.total_price) ||
  decide (n.subtotal_price ≠ e.subtotal_price) ||
  decide (n.total_tax ≠ e.total_tax) ||
  decide (n.email ≠ e.email) ||
  decide (shippingJson n.shipping_address ≠ shippingJson e.shipping_address) ||
  decide (n.line_items.length ≠ e.line_items.length) ||
  decide (n.line_items.map lineItemJson ≠ e.line_items.map lineItemJson) ||
  decide (customerJson n.customer ≠ customerJson e.customer)

/-- Lookup of the stored document for an id (the `existingOrdersMap` built
from `find({id: {$in: orderIds}})`). -/
def existingFor (db : List StoredOrder) (id : String) : Option StoredOrder :=
  db.find? (fun d => d.order.id == id)

/-- Chunk collection loop: `k` is the remaining capacity of the chunk
being built, `acc` its elements in reverse. -/
def chunkLoop (n : Nat) : List α → Nat → List α → List (List α)
  | [], _, acc => if acc.isEmpty then [] else [acc.reverse]
  | x :: xs, k, acc =>
    if k ≤ 1 then (acc.reverse ++ [x]) :: chunkLoop n xs n []
    else chunkLoop n xs (k - 1) (x :: acc)

/-- `orders.slice(i, i + batchSize)` chunking for `batchSize = n` (the
loops use the fixed batch size 1000): consecutive chunks of `n` elements,
the last one possibly shorter. -/
def chunkList (n : Nat) (l : List α) : List (List α) :=
  chunkLoop n l n []

/-- Apply one batch of sync `updateOne` upserts in order. -/
def applyBatch (db : List StoredOrder) (batch : List Order) (now : String) :
    List StoredOrder :=
  batch.foldl (fun d o => syncUpsertOp d o now) db

/-- The batch-write loop from index `i`: `failAt = some i` models the
`bulkWrite` of batch `i` throwing.  Returns the collection after the writes
that committed, plus whether every batch succeeded. -/
def runBatchWritesFrom (now : String) (failAt : Option Nat) :
    List StoredOrder → List (List Order) → Nat → List StoredOrder × Bool
  | db, [], _ => (db, true)
  | db, b :: rest, i =>
    if failAt = some i then (db, false)
    else runBatchWritesFrom now failAt (applyBatch db b now) rest (i + 1)

/-- The batched write loop over all batches. -/
def runBatchWrites (db : List StoredOrder) (batches : List (List Order))
    (now : String) (failAt : Option Nat) : List StoredOrder × Bool :=
  runBatchWritesFrom now failAt db batches 0

/-! ### `GET /api/orders?status=bulk` and bulk finalization -/

/-- `normalizeStatus` from `src/app/api/orders/route.ts` (lower-cases the
upstream status string; a missing or empty status is `idle`). -/
def normalizeStatus (status : Option String) : SyncStatus :=
  match status with
  | none => .idle
  | some st =>
    if st = "" then .idle
    else
      let s := asciiLower st
      if s = "completed" then .completed
      else if s = "failed" then .failed
      else if s = "canceled" then .canceled
      else if s = "created" ∨ s = "running" then .pending
      else .idle

/-- Upstream bulk-operation status (`BulkOperationStatus` in
`src/lib/shopify.ts`, restricted to the fields the handlers read). -/
structure BulkOperationStatus where
  id : String
  status : String
  url : Option String
deriving DecidableEq

/-- JSON body returned by the bulk-status endpoint. -/
structure BulkStatusResponse where
  status : SyncStatus
  operationId : Option String
  synced : Option Nat
  url : Option String
deriving DecidableEq

/-- Outcome of `GET /api/orders?status=bulk`: the response, the states
after the synchronous part of the handler, and whether the background
finalization task was spawned. -/
structure BulkStatusOutcome where
  response : BulkStatusResponse
  doc : Option BulkStateDoc
  cache : BulkStateCache
  finalizeStarted : Bool
deriving DecidableEq

/-- The `statusCheck === "bulk"` branch of the `GET` handler in
`src/app/api/orders/route.ts`.  `currentOp` models
`getCurrentBulkOperation()`.  The background finalization IIFE is
fire-and-forget; its effects are modelled separately by `finalizeBulk`. -/
def bulkStatusGET (cache : BulkStateCache) (doc : Option BulkStateDoc)
    (currentOp : Option BulkOperationStatus) (nowMs : Nat) (nowIso : String) :
    BulkStatusOutcome :=
  let sc := getBulkSyncState cache doc nowMs
  let state := sc.1
  if state.status = .pending then
    match currentOp with
    | none =>
      let uc := updateBulkSyncState doc
        { status := some .idle, operationId := some none, synced := none }
        nowIso nowMs
      { response := { status := .idle, operationId := none, synced := none, url := none }
        doc := uc.1
        cache := uc.2
        finalizeStarted := false }
    | some op =>
      let normalized := normalizeStatus (some op.status)
      if normalized = .completed ∧ (jsOrU op.url).isSome then
        if state.synced.isSome then
          { response :=
              { status := .idle, operationId := none, synced := state.synced, url := none }
            doc := doc
            cache := sc.2
            finalizeStarted := false }
        else
          { response :=
              { status := .pending, operationId := some op.id, synced := none, url := none }
            doc := doc
            cache := sc.2
            finalizeStarted := true }
      else
        let uc := updateBulkSyncState doc
          { status := some normalized, operationId := some (some op.id), synced := none }
          nowIso nowMs
        { response :=
            { status := normalized, operationId := some op.id, synced := none, url := op.url }
          doc := uc.1
          cache := uc.2
          finalizeStarted := false }
  else
    { response :=
        { status := state.status, operationId := state.operationId
          synced := state.synced, url := none }
      doc := doc
      cache := sc.2
      finalizeStarted := false }

/-- Outcome of the background finalization task. -/
structure FinalizeOutcome where
  db : List StoredOrder
  lastSyncAt : Option String
  doc : Option BulkStateDoc
  cache : BulkStateCache
  watermarkAdvanced : Bool
deriving DecidableEq

/-- The background finalization IIFE of the bulk-status handler:
set the state to `pending`, download and parse (`downloaded = none` models
`downloadBulkData` throwing), upsert in 1000-record batches, advance the
watermark, then set the state to `idle` with the synced count; any thrown
error is caught and the state set to `failed` with the operation id. -/
def finalizeBulk (opId : String) (downloaded : Option (List Order))
    (failAt : Option Nat) (db : List StoredOrder) (lastSyncAt : Option String)
    (doc : Option BulkStateDoc) (nowIso : String) (nowMs : Nat) :
    FinalizeOutcome :=
  let uc₁ := updateBulkSyncState doc
    { status := some .pending, operationId := some (some opId), synced := none }
    nowIso nowMs
  match downloaded with
  | none =>
    let uc₂ := updateBulkSyncState uc₁.1
      { status := some .failed, operationId := some (some opId), synced := none }
      nowIso nowMs
    { db := db, lastSyncAt := lastSyncAt, doc := uc₂.1, cache := uc₂.2
      watermarkAdvanced := false }
  | some orders =>
    let wr := runBatchWrites db (chunkList 1000 orders) nowIso failAt
    if wr.2 then
      let uc₂ := updateBulkSyncState uc₁.1
        { status := some .idle, operationId := some none, synced := some orders.length }
        nowIso nowMs
      { db := wr.1, lastSyncAt := some nowIso, doc := uc₂.1, cache := uc₂.2
        watermarkAdvanced := true }
    else
      let uc₂ := updateBulkSyncState uc₁.1
        { status := some .failed, operationId := some (some opId), synced := none }
        nowIso nowMs
      { db := wr.1, lastSyncAt := lastSyncAt, doc := uc₂.1, cache := uc₂.2
        watermarkAdvanced := false }

/-! ### `POST /api/orders {sync: true}` -/

/-- JSON body of a sync response (`new`/`updated` are `newCount` /
`updatedCount`). -/
structure SyncResponse where
  httpStatus : Nat
  success : Bool
  status : Option SyncStatus
  method : Option String
  operationId : Option String
  synced : Option Nat
  newCount : Option Nat
  updatedCount : Option Nat
  isFirstSync : Option Bool
deriving DecidableEq

/-- External collaborators of the sync handler: the upstream current bulk
operation, the stored watermark, the upstream page sequence for the
`updated_at >= lastSyncAt` query (shared by `countOrdersSinceDate` and
`fetchOrdersIncremental`), the result of `fetchOrdersByIds` on the
unfulfilled ids (`none` = it throws, which is caught), and the operation id
a `startOrdersBulk` call would return. -/
structure SyncEnv where
  currentOp : Option BulkOperationStatus
  lastSyncAt : Option String
  pages : List (List Order)
  resyncResult : Option (List Order)
  newBulkOpId : String
deriving DecidableEq

/-- Outcome of the sync `POST`: the response, the stores after the request,
the since-argument of the `startOrdersBulk` call when one was made
(`some none` = unscoped), and whether the watermark write ran. -/
structure SyncOutcome where
  response : SyncResponse
  db : List StoredOrder
  lastSyncAt : Option String
  doc : Option BulkStateDoc
  cache : BulkStateCache
  bulkStarted : Option (Option String)
  watermarkAdvanced : Bool
deriving DecidableEq

/-- The 500 response produced by the outer `catch` of the handler. -/
def syncErrorResponse : SyncResponse :=
  { httpStatus := 500, success := false, status := none, method := none
    operationId := none, synced := none, newCount := none
    updatedCount := none, isFirstSync := none }

/-- The merged order list of the incremental path: the incremental fetch
plus, when unfulfilled stored orders exist, the orders re-fetched by id
(`fetchOrdersByIds`; a thrown error there is caught and the merge skipped). -/
def syncMergedOrders (env : SyncEnv) (db : List StoredOrder) : List Order :=
  let fetched := fetchOrdersIncremental env.pages
  if ((getUnfulfilledOrders db).map (fun d => d.order.id)).isEmpty then fetched
  else
    match env.resyncResult with
    | some rs => fetched ++ rs
    | none => fetched

/-- `uniqueOrders`: the merged list deduplicated by id. -/
def syncUniqueOrders (env : SyncEnv) (db : List StoredOrder) : List Order :=
  dedupById (syncMergedOrders env db)

/-- `newCount`: unique orders with no stored document. -/
def syncNewCount (env : SyncEnv) (db : List StoredOrder) : Nat :=
  ((syncUniqueOrders env db).filter
    (fun o => (existingFor db o.id).isNone)).length

/-- `updatedCount`: unique orders whose stored version differs in a
significant field. -/
def syncUpdatedCount (env : SyncEnv) (db : List StoredOrder) : Nat :=
  ((syncUniqueOrders env db).filter (fun o =>
    match existingFor db o.id with
    | some e => hasOrderChanged o e.order
    | none => false)).length

/-- The sync handler after the conflict check: first-sync bulk start,
threshold decision, incremental fetch, unfulfilled re-sync merge,
deduplication, diff counting, batched writes, watermark advance. -/
def ordersSyncRun (env : SyncEnv) (db : List StoredOrder)
    (doc : Option BulkStateDoc) (cache : BulkStateCache)
    (nowIso : String) (nowMs : Nat) (failAt : Option Nat) : SyncOutcome :=
  match env.lastSyncAt with
  | none =>
    let uc := updateBulkSyncState doc
      { status := some .pending, operationId := some (some env.newBulkOpId), synced := none }
      nowIso nowMs
    { response :=
        { httpStatus := 202, success := true, status := some .pending
          method := some "bulk", operationId := some env.newBulkOpId
          synced := none, newCount := none, updatedCount := none
          isFirstSync := some true }
      db := db, lastSyncAt := env.lastSyncAt, doc := uc.1, cache := uc.2
      bulkStarted := some none, watermarkAdvanced := false }
  | some w =>
    let orderCount := countOrdersSinceDate env.pages 100
    if 100 < orderCount then
      let uc := updateBulkSyncState doc
        { status := some .pending, operationId := some (some env.newBulkOpId), synced := none }
        nowIso nowMs
      { response :=
          { httpStatus := 202, success := true, status := some .pending
            method := some "bulk", operationId := some env.newBulkOpId
            synced := none, newCount := none, updatedCount := none
            isFirstSync := some false }
        db := db, lastSyncAt := env.lastSyncAt, doc := uc.1, cache := uc.2
        bulkStarted := some (some w), watermarkAdvanced := false }
    else
      let uniqueOrders := syncUniqueOrders env db
      let wr := runBatchWrites db (chunkList 1000 uniqueOrders) nowIso failAt
      if wr.2 then
        { response :=
            { httpStatus := 200, success := true, status := none
              method := some "incremental", operationId := none
              synced := some uniqueOrders.length
              newCount := some (syncNewCount env db)
              updatedCount := some (syncUpdatedCount env db)
              isFirstSync := some false }
          db := wr.1, lastSyncAt := some nowIso, doc := doc, cache := cache
          bulkStarted := none, watermarkAdvanced := true }
      else
        { response := syncErrorResponse
          db := wr.1, lastSyncAt := env.lastSyncAt, doc := doc, cache := cache
          bulkStarted := none, watermarkAdvanced := false }

/-- `POST /api/orders` with `{sync: true}` from
`src/app/api/orders/route.ts`: conflict check against the upstream current
bulk operation, then `ordersSyncRun`. -/
def ordersSyncPOST (env : SyncEnv) (db : List StoredOrder)
    (doc : Option BulkStateDoc) (cache : BulkStateCache)
    (nowIso : String) (nowMs : Nat) (failAt : Option Nat) : SyncOutcome :=
  match env.currentOp with
  | some op =>
    if asciiUpper op.status = "RUNNING" ∨ asciiUpper op.status = "CREATED" then
      { response :=
          { httpStatus := 409, success := false, status := some .pending
            method := none, operationId := some op.id, synced := none
            newCount := none, updatedCount := none, isFirstSync := none }
        db := db, lastSyncAt := env.lastSyncAt, doc := doc, cache := cache
        bulkStarted := none, watermarkAdvanced := false }
    else ordersSyncRun env db doc cache nowIso nowMs failAt
  | none => ordersSyncRun env db doc cache nowIso nowMs failAt

/-! ### Metrics aggregator (`getMetricsFromDb` in `src/lib/orders.ts`)

The file contains two variants of `getMetricsFromDb`.  The first (lines
95-164) queries `created_at: {$gte: startDateISO}`; in the second (lines
341-411) that filter is commented out, so every stored order is read.  Both
are embedded, under `OrdersLibA` and `OrdersLibB`.  Monetary values are
modelled as rationals via a decimal parser standing in for `parseFloat` on
the decimal strings this system stores (a non-numeric string contributes
0). -/

/-- One per-date metrics entry (`OrderMetrics` in `src/types/order.ts`). -/
structure OrderMetrics where
  date : String
  orderCount : Nat
  revenue : ℚ
  shippingCost : ℚ
deriving DecidableEq

/-- The `summary` object of the metrics response. -/
structure MetricsSummary where
  totalOrders : Nat
  totalRevenue : ℚ
  totalShipping : ℚ
  averageOrderValue : ℚ
deriving DecidableEq

/-- The metrics response: per-date entries plus summary. -/
structure MetricsResult where
  metrics : List OrderMetrics
  summary : MetricsSummary
deriving DecidableEq

/-- Decimal-string parser standing in for JavaScript `parseFloat` on the
canonical decimal strings stored by this system (`"12.50"`); a string
without a leading digit yields `none` (`NaN`). -/
def parseDec (s : String) : Option ℚ :=
  let cs := s.toList
  let intPart := cs.takeWhile Char.isDigit
  if intPart.isEmpty then none
  else
    let rest := cs.drop intPart.length
    let frac :=
      match rest with
      | '.' :: fs => fs.takeWhile Char.isDigit
      | _ => []
    let iv : Nat := intPart.foldl (fun n c => 10 * n + (c.toNat - 48)) 0
    let fv : Nat := frac.foldl (fun n c => 10 * n + (c.toNat - 48)) 0
    some ((iv : ℚ) + (fv : ℚ) / ((10 : ℚ) ^ frac.length))

/-- `parseFloat(s || "0")` as used for `total_price`: a missing or
non-numeric price contributes 0 in this model. -/
def parseMoney (s : String) : ℚ :=
  (parseDec (jsOrStr (some s) "0")).getD 0

/-- `parseFloat(total_shipping_price_set?.shop_money?.amount || "0") || 0`. -/
def shippingAmount (o : Order) : ℚ :=
  (parseDec (jsOrStr (o.total_shipping_price_set.bind (fun ps =>
    ps.shop_money.map (fun m => m.amount))) "0")).getD 0

/-- Models `new Date(created_at)` plus `toISOString().split("T")[0]` for
the UTC ISO-8601 strings this system stores: the `YYYY-MM-DD` prefix when
the string has that shape, `none` (an invalid date, skipped) otherwise.
Calendar arithmetic and timezone offsets are not modelled. -/
def jsDateKey (s : String) : Option String :=
  match s.toList with
  | y1 :: y2 :: y3 :: y4 :: '-' :: m1 :: m2 :: '-' :: d1 :: d2 :: rest =>
    if ([y1, y2, y3, y4, m1, m2, d1, d2].all Char.isDigit) ∧
        (rest = [] ∨ rest.head? = some 'T') then
      some (String.mk [y1, y2, y3, y4, '-', m1, m2, '-', d1, d2])
    else none
  | _ => none

/-- Update the entry for `date` with one order (or create it) in the
insertion-ordered `metricsByDate` map. -/
def metricsMapSet : List (String × OrderMetrics) → String → Order →
    List (String × OrderMetrics)
  | [], date, o =>
    [(date, { date := date, orderCount := 1, revenue := parseMoney o.total_price
              shippingCost := shippingAmount o })]
  | (k, e) :: rest, date, o =>
    if k = date then
      (k, { e with
              orderCount := e.orderCount + 1
              revenue := e.revenue + parseMoney o.total_price
              shippingCost := e.shippingCost + shippingAmount o }) :: rest
    else (k, e) :: metricsMapSet rest date o

/-- One order of the `orders.forEach` aggregation loop: skip missing or
invalid `created_at`, otherwise accumulate under the date key. -/
def metricsMapStep (m : List (String × OrderMetrics)) (o : Order) :
    List (String × OrderMetrics) :=
  match jsDateKey o.created_at with
  | none => m
  | some date => metricsMapSet m date o

/-- Stable insertion by `created_at` (the `sort({created_at: 1})` of the
Mongo query, ascending string order). -/
def insertByCreatedAt (o : StoredOrder) : List StoredOrder → List StoredOrder
  | [] => [o]
  | x :: xs =>
    if strLe o.order.created_at x.order.created_at then o :: x :: xs
    else x :: insertByCreatedAt o xs

/-- Ascending sort by `created_at`. -/
def sortByCreatedAt (l : List StoredOrder) : List StoredOrder :=
  l.foldr insertByCreatedAt []

/-- Stable insertion by `date` (the final `localeCompare` sort). -/
def insertByDate (m : OrderMetrics) : List OrderMetrics → List OrderMetrics
  | [] => [m]
  | x :: xs =>
    if strLe m.date x.date then m :: x :: xs else x :: insertByDate m xs

/-- Ascending sort of the metrics entries by `date`. -/
def sortByDate (l : List OrderMetrics) : List OrderMetrics :=
  l.foldr insertByDate []

/-- Shared tail of both `getMetricsFromDb` variants: group the (already
queried and sorted) orders by calendar date, sort the entries by date, and
reduce the summary totals. -/
def aggregateMetrics (orders : List StoredOrder) : MetricsResult :=
  let grouped := orders.foldl (fun m d => metricsMapStep m d.order) []
  let metrics := sortByDate (grouped.map Prod.snd)
  let totalRevenue := (metrics.map (fun m => m.revenue)).sum
  let totalShipping := (metrics.map (fun m => m.shippingCost)).sum
  let totalOrders := (metrics.map (fun m => m.orderCount)).sum
  { metrics := metrics
    summary :=
      { totalOrders := totalOrders
        totalRevenue := totalRevenue
        totalShipping := totalShipping
        averageOrderValue :=
          if 0 < totalOrders then totalRevenue / (totalOrders : ℚ) else 0 } }

namespace OrdersLibA

/-- `getMetricsFromDb` — first variant (`src/lib/orders.ts` lines 95-164):
queries only orders with `created_at >= startDateISO` (string `$gte`,
`startDateISO` = start of the day `days` days ago). -/
def getMetricsFromDb (db : List StoredOrder) (startDateISO : String) :
    MetricsResult :=
  aggregateMetrics
    (sortByCreatedAt (db.filter (fun d => strLe startDateISO d.order.created_at)))

end OrdersLibA

namespace OrdersLibB

/-- `getMetricsFromDb` — second variant (`src/lib/orders.ts` lines
341-411): the `created_at: {$gte: startDateISO}` query is commented out, so
every stored order is aggregated regardless of the `days` window. -/
def getMetricsFromDb (db : List StoredOrder) : MetricsResult :=
  aggregateMetrics (sortByCreatedAt db)

end OrdersLibB

/-! ## Shared lemmas about the keyed upsert -/

/-- Number of stored documents carrying a given id. -/
def countId (db : List StoredOrder) (k : String) : Nat :=
  (db.filter (fun d => d.order.id == k)).length

/-- After an upsert at key `k` with a document whose id is `k`, the lookup
at `k` returns exactly that document. -/
theorem updateOneUpsert_find (db : List StoredOrder) (k : String)
    (doc : StoredOrder) (h : doc.order.id = k) :
    (updateOneUpsert db k doc).find? (fun d => d.order.id == k) = some doc := by
  induction db with
  | nil => simp [updateOneUpsert, h]
  | cons d rest ih =>
    by_cases hd : d.order.id = k
    · simp [updateOneUpsert, hd, h]
    · simp [updateOneUpsert, hd, ih]

/-- Upserting the same document twice is the same as upserting it once. -/
theorem updateOneUpsert_idem (db : List StoredOrder) (k : String)
    (doc : StoredOrder) (h : doc.order.id = k) :
    updateOneUpsert (updateOneUpsert db k doc) k doc =
      updateOneUpsert db k doc := by
  induction db with
  | nil => simp [updateOneUpsert, h]
  | cons d rest ih =>
    by_cases hd : d.order.id = k
    · simp [updateOneUpsert, hd, h]
    · simp [updateOneUpsert, hd, ih]

/-- `countId` over a cons cell. -/
theorem countId_cons (x : StoredOrder) (l : List StoredOrder) (k : String) :
    countId (x :: l) k =
      if x.order.id = k then countId l k + 1 else countId l k := by
  by_cases hx : x.order.id = k <;> simp [countId, hx]

/-- An upsert at key `k` leaves exactly `max (previous count) 1` documents
with id `k`: it inserts when none exists and replaces the first match
otherwise. -/
theorem countId_updateOneUpsert (db : List StoredOrder) (k : String)
    (doc : StoredOrder) (h : doc.order.id = k) :
    countId (updateOneUpsert db k doc) k = max (countId db k) 1 := by
  induction db with
  | nil =>
    simp only [updateOneUpsert]
    rw [countId_cons, if_pos h]
    simp [countId]
  | cons d rest ih =>
    by_cases hd : d.order.id = k
    · simp only [updateOneUpsert]
      rw [if_pos hd, countId_cons, countId_cons, if_pos h, if_pos hd]
      omega
    · simp only [updateOneUpsert]
      rw [if_neg hd, countId_cons, countId_cons, if_neg hd, if_neg hd, ih]

/-! ## C3 — `countOrdersSinceDate` short-circuit behaviour -/

/-- `trueCount` unfolded over a cons cell. -/
theorem trueCount_cons (p : List Order) (rest : List (List Order)) :
    trueCount (p :: rest) = p.length + trueCount rest := by
  simp [trueCount]

/-- When the remaining true count fits under the threshold, the loop adds
every page exactly. -/
theorem countOrdersLoop_exact (t : Nat) (pages : List (List Order)) :
    ∀ c, c + trueCount pages ≤ t →
      countOrdersLoop t pages c = c + trueCount pages := by
  induction pages with
  | nil => intro c _; simp [countOrdersLoop, trueCount]
  | cons p rest ih =>
    intro c hc
    rw [trueCount_cons] at hc ⊢
    simp only [countOrdersLoop]
    split_ifs with h1 h2
    · omega
    · rw [ih (c + p.length) (by omega)]
      omega
    · omega

/-- When the true count reaches the threshold, the loop result is at least
the threshold. -/
theorem countOrdersLoop_ge (t : Nat) (pages : List (List Order)) :
    ∀ c, t ≤ c + trueCount pages → t ≤ countOrdersLoop t pages c := by
  induction pages with
  | nil =>
    intro c h
    simp only [countOrdersLoop]
    simp [trueCount] at h
    omega
  | cons p rest ih =>
    intro c hc
    rw [trueCount_cons] at hc
    simp only [countOrdersLoop]
    split_ifs with h1 h2
    · omega
    · exact ih (c + p.length) (by omega)
    · omega

/-- The loop never returns more than the accumulator plus the true count. -/
theorem countOrdersLoop_le (t : Nat) (pages : List (List Order)) :
    ∀ c, countOrdersLoop t pages c ≤ c + trueCount pages := by
  induction pages with
  | nil => intro c; simp [countOrdersLoop, trueCount]
  | cons p rest ih =>
    intro c
    rw [trueCount_cons]
    simp only [countOrdersLoop]
    split_ifs with h1 h2
    · omega
    · have := ih (c + p.length)
      omega
    · omega

/-- A concrete order used for evaluations of the count loop. -/
def sampleOrder : Order :=
  { id := "1001"
    order_number := 1
    email := none
    created_at := "2024-01-01T00:00:00Z"
    updated_at := "2024-01-02T00:00:00Z"
    total_price := "10.00"
    subtotal_price := "9.00"
    total_tax := "1.00"
    total_shipping_price_set := none
    shipping_address := none
    line_items := []
    financial_status := none
    fulfillment_status := none
    currency := some "USD"
    customer := none }

/-- C3, counterexample: a single upstream page of 101 matching orders with
threshold 100 makes `countOrdersSinceDate` return the full page length,
not exactly the threshold, although the true count is at least the
threshold. -/
theorem countOrdersSinceDate_not_exact_threshold :
    countOrdersSinceDate [List.replicate 101 sampleOrder] 100 = 101 ∧
    100 ≤ trueCount [List.replicate 101 sampleOrder] ∧
    (101 : Nat) ≠ 100 := by
  refine ⟨by decide, by simp [trueCount], by decide⟩

/-- C3 (amended): `countOrdersSinceDate(since, t)` returns exactly the true
count whenever the true count is at most `t`, and returns a value between
`t` and the true count (at least `t`, not exactly `t`) whenever the true
count is at least `t`. -/
theorem countOrdersSinceDate_short_circuit_bounds
    (pages : List (List Order)) (t : Nat) :
    (trueCount pages ≤ t → countOrdersSinceDate pages t = trueCount pages) ∧
    (t ≤ trueCount pages →
      t ≤ countOrdersSinceDate pages t ∧
      countOrdersSinceDate pages t ≤ trueCount pages) := by
  refine ⟨fun h => ?_, fun h => ⟨?_, ?_⟩⟩
  · simpa using countOrdersLoop_exact t pages 0 (by omega)
  · exact countOrdersLoop_ge t pages 0 (by omega)
  · simpa using countOrdersLoop_le t pages 0

/-- Witness for C3 at a concrete page sequence: two pages of one order each
with threshold 100 give exactly the true count 2. -/
theorem countOrdersSinceDate_short_circuit_bounds_witness :
    countOrdersSinceDate [[sampleOrder], [sampleOrder]] 100 =
      trueCount [[sampleOrder], [sampleOrder]] :=
  (countOrdersSinceDate_short_circuit_bounds [[sampleOrder], [sampleOrder]] 100).1
    (by simp [trueCount])

/-! ## C5 — which version survives conflicting writes of the same id -/

/-- The order with the later `updated_at` in the C5 counterexample. -/
def cexOrderLate : Order :=
  { sampleOrder with updated_at := "2024-01-02T00:00:00Z" }

/-- The order with the earlier `updated_at` in the C5 counterexample. -/
def cexOrderEarly : Order :=
  { sampleOrder with updated_at := "2024-01-01T00:00:00Z" }

/-- C5, counterexample: writing the later-`updated_at` version
(`2024-01-02`) first and the earlier one (`2024-01-01`) second leaves the
*earlier* version stored — the upsert is not keyed by the source system's
`updated_at`. -/
theorem sync_upsert_not_keyed_by_updated_at :
    syncUpsertOp (syncUpsertOp [] cexOrderLate "t0") cexOrderEarly "t0" =
      [syncUpsertDoc cexOrderEarly "t0"] ∧
    cexOrderEarly.updated_at = "2024-01-01T00:00:00Z" ∧
    cexOrderLate.updated_at = "2024-01-02T00:00:00Z" ∧
    syncUpsertDoc cexOrderEarly "t0" ≠ syncUpsertDoc cexOrderLate "t0" := by
  refine ⟨by rfl, by rfl, by rfl, by decide⟩

/-- C5 (amended): the upsert is last-applied-wins — after two writes with
the same id (via the sync upsert or the webhook-update upsert as the second
write), the stored record for that id is exactly the most recently applied
version, and it is unique.  In particular the later-`updated_at` version is
stored iff it is applied second. -/
theorem sync_upsert_last_applied_wins (db : List StoredOrder)
    (o1 o2 : Order) (n1 n2 : String) (hid : o1.id = o2.id)
    (hdb : countId db o2.id ≤ 1) :
    ((syncUpsertOp (syncUpsertOp db o1 n1) o2 n2).find?
        (fun d => d.order.id == o2.id) = some (syncUpsertDoc o2 n2)) ∧
    countId (syncUpsertOp (syncUpsertOp db o1 n1) o2 n2) o2.id = 1 ∧
    ((webhookUpdateUpsertOp (syncUpsertOp db o1 n1) o2 n2).find?
        (fun d => d.order.id == o2.id) =
      some { order := { o2 with updated_at := n2 }
             syncStatus := some "success"
             syncedAt := some n2
             syncError := none }) := by
  refine ⟨?_, ?_, ?_⟩
  · exact updateOneUpsert_find _ o2.id _ rfl
  · simp only [syncUpsertOp, hid]
    have h1 := countId_updateOneUpsert db o2.id (syncUpsertDoc o1 n1)
      (by simpa [syncUpsertDoc] using hid)
    have h2 := countId_updateOneUpsert
      (updateOneUpsert db o2.id (syncUpsertDoc o1 n1)) o2.id
      (syncUpsertDoc o2 n2) rfl
    omega
  · exact updateOneUpsert_find _ o2.id _ rfl

/-- Witness for C5 (amended): on an empty store, writing the earlier
version then the later version leaves exactly the later version. -/
theorem sync_upsert_last_applied_wins_witness :
    ((syncUpsertOp (syncUpsertOp [] cexOrderEarly "t0") cexOrderLate "t0").find?
        (fun d => d.order.id == cexOrderLate.id) =
      some (syncUpsertDoc cexOrderLate "t0")) ∧
    countId (syncUpsertOp (syncUpsertOp [] cexOrderEarly "t0") cexOrderLate "t0")
      cexOrderLate.id = 1 :=
  ⟨(sync_upsert_last_applied_wins [] cexOrderEarly cexOrderLate "t0" "t0" rfl
      (by decide)).1,
   (sync_upsert_last_applied_wins [] cexOrderEarly cexOrderLate "t0" "t0" rfl
      (by decide)).2.1⟩

/-! ## C9 — idempotence of the upserts -/

/-- C9: upserting the same order with identical data twice (the sync batch
`updateOne` or the webhook-update `updateOne`, both carrying the same sync
timestamp) leaves exactly one stored record for that id, and the collection
after the second upsert equals the collection after the first. -/
theorem upsert_idempotent (db : List StoredOrder) (o : Order) (now : String)
    (hdb : countId db o.id ≤ 1) :
    (syncUpsertOp (syncUpsertOp db o now) o now = syncUpsertOp db o now) ∧
    countId (syncUpsertOp db o now) o.id = 1 ∧
    (webhookUpdateUpsertOp (webhookUpdateUpsertOp db o now) o now =
      webhookUpdateUpsertOp db o now) ∧
    countId (webhookUpdateUpsertOp db o now) o.id = 1 := by
  refine ⟨?_, ?_, ?_, ?_⟩
  · exact updateOneUpsert_idem db o.id _ rfl
  · have := countId_updateOneUpsert db o.id (syncUpsertDoc o now) rfl
    simp only [syncUpsertOp]
    omega
  · exact updateOneUpsert_idem db o.id _ rfl
  · have := countId_updateOneUpsert db o.id
      { order := { o with updated_at := now }
        syncStatus := some "success"
        syncedAt := some now
        syncError := none } rfl
    simp only [webhookUpdateUpsertOp]
    omega

/-- Witness for C9 on a concrete store and order. -/
theorem upsert_idempotent_witness :
    (syncUpsertOp (syncUpsertOp [] sampleOrder "t1") sampleOrder "t1" =
      syncUpsertOp [] sampleOrder "t1") ∧
    countId (syncUpsertOp [] sampleOrder "t1") sampleOrder.id = 1 :=
  ⟨(upsert_idempotent [] sampleOrder "t1" (by decide)).1,
   (upsert_idempotent [] sampleOrder "t1" (by decide)).2.1⟩

/-! ## C6 — webhook signature rejection -/

/-- C6: a webhook request whose `x-shopify-hmac-sha256` header is missing,
or whose value differs from the keyed hash of the raw body under the
configured shared secret, is answered 401 by both webhook routes and leaves
the orders collection unchanged.  Quantified over the hash primitive. -/
theorem webhook_invalid_signature_rejected_no_write
    (hmac : String → String → String) (sec body now : String)
    (parsedRaw parsedUpd : Option WebhookOrder) (sig : Option String)
    (dbRaw : List WebhookOrder) (dbUpd : List StoredOrder)
    (hrej : sig = none ∨ ∃ v, sig = some v ∧ v ≠ hmac sec body) :
    ((webhookOrdersPOST hmac (some sec) body parsedRaw sig dbRaw now).response.httpStatus
        = 401 ∧
      (webhookOrdersPOST hmac (some sec) body parsedRaw sig dbRaw now).db = dbRaw) ∧
    ((webhookOrdersUpdatePOST hmac (some sec) body parsedUpd sig dbUpd now).response.httpStatus
        = 401 ∧
      (webhookOrdersUpdatePOST hmac (some sec) body parsedUpd sig dbUpd now).db = dbUpd) := by
  rcases hrej with h | ⟨v, hv, hne⟩
  · subst h
    simp [webhookOrdersPOST, webhookOrdersUpdatePOST]
  · subst hv
    have hfalse : verifyWebhookSignature hmac body v sec = false := by
      simp only [verifyWebhookSignature, decide_eq_false_iff_not]
      exact fun hh => hne hh.symm
    simp [webhookOrdersPOST, webhookOrdersUpdatePOST, hfalse]

/-- Witness for C6: a concrete mismatched signature is rejected with no
write on both routes. -/
theorem webhook_invalid_signature_rejected_no_write_witness :
    ((webhookOrdersPOST (fun s b => s ++ b) (some "k") "body" none (some "x") [] "t").response.httpStatus
        = 401 ∧
      (webhookOrdersPOST (fun s b => s ++ b) (some "k") "body" none (some "x") [] "t").db = []) ∧
    ((webhookOrdersUpdatePOST (fun s b => s ++ b) (some "k") "body" none (some "x") [] "t").response.httpStatus
        = 401 ∧
      (webhookOrdersUpdatePOST (fun s b => s ++ b) (some "k") "body" none (some "x") [] "t").db = []) :=
  webhook_invalid_signature_rejected_no_write (fun s b => s ++ b) "k" "body" "t"
    none none (some "x") [] [] (Or.inr ⟨"x", rfl, by decide⟩)

/-! ## C7 — is an accepted webhook normalized before the upsert? -/

/-- The raw webhook payload of the C7 counterexample: an order whose
monetary fields and currency are missing. -/
def cexWebhookOrder : WebhookOrder :=
  { id := some "5001"
    name := none
    email := none
    created_at := none
    updated_at := none
    total_price := none
    subtotal_price := none
    total_tax := none
    total_shipping_price_set := none
    shipping_address := none
    line_items := none
    financial_status := none
    fulfillment_status := none
    currency := none
    customer := none }

/-- C7, counterexample: a webhook accepted by the plain
`POST /api/webhooks/orders` route stores the raw parsed payload (only
`updated_at` overwritten) — the stored record keeps `total_price` and
`currency` absent, while the normalized `Order` shape produced by
`transformWebhookOrderToOrder` would have the monetary default `"0"` and
the `"USD"` currency fallback. -/
theorem webhook_orders_route_stores_raw_payload :
    (webhookOrdersPOST (fun s b => s ++ b) (some "k") "body"
        (some cexWebhookOrder) (some "kbody") [] "t").response.httpStatus = 200 ∧
    (webhookOrdersPOST (fun s b => s ++ b) (some "k") "body"
        (some cexWebhookOrder) (some "kbody") [] "t").db =
      [{ cexWebhookOrder with updated_at := some "t" }] ∧
    ({ cexWebhookOrder with updated_at := some "t" } : WebhookOrder).total_price = none ∧
    (transformWebhookOrderToOrder "t" cexWebhookOrder).total_price = "0" ∧
    ({ cexWebhookOrder with updated_at := some "t" } : WebhookOrder).currency = none ∧
    (transformWebhookOrderToOrder "t" cexWebhookOrder).currency = some "USD" := by
  refine ⟨by decide, by decide, rfl, by decide, rfl, by decide⟩

/-- C7 (amended): the `/update` webhook route transforms the payload to the
normalized `Order` shape before the upsert — the stored record for the
order's id is exactly the transform of the payload, with `updated_at` and
the sync bookkeeping set at receipt time; the plain `/orders` route instead
upserts the raw parsed payload itself, only overwriting `updated_at`. -/
theorem webhook_update_route_normalizes_before_upsert
    (hmac : String → String → String) (sec body now : String)
    (w : WebhookOrder) (sig : Option String) (db : List StoredOrder)
    (hsig : sig = some (hmac sec body)) :
    ((webhookOrdersUpdatePOST hmac (some sec) body (some w) sig db now).db.find?
        (fun d => d.order.id == (transformWebhookOrderToOrder now w).id) =
      some { order := { transformWebhookOrderToOrder now w with updated_at := now }
             syncStatus := some "success"
             syncedAt := some now
             syncError := none }) ∧
    (webhookOrdersPOST hmac (some sec) body (some w) sig [] now).db =
      [{ w with updated_at := some now }] := by
  subst hsig
  have hv : verifyWebhookSignature hmac body (hmac sec body) sec = true := by
    simp [verifyWebhookSignature]
  constructor
  · simp only [webhookOrdersUpdatePOST, hv, if_true]
    exact updateOneUpsert_find db _ _ rfl
  · simp only [webhookOrdersPOST, hv, if_true]
    rfl

/-- Witness for C7 (amended) at a concrete accepted webhook. -/
theorem webhook_update_route_normalizes_before_upsert_witness :
    (webhookOrdersUpdatePOST (fun s b => s ++ b) (some "k") "b"
        (some cexWebhookOrder) (some "kb") [] "t").db.find?
        (fun d => d.order.id == (transformWebhookOrderToOrder "t" cexWebhookOrder).id) =
      some { order := { transformWebhookOrderToOrder "t" cexWebhookOrder with updated_at := "t" }
             syncStatus := some "success"
             syncedAt := some "t"
             syncError := none } :=
  (webhook_update_route_normalizes_before_upsert (fun s b => s ++ b) "k" "b" "t"
    cexWebhookOrder (some "kb") [] (by decide)).1

/-! ## C2 — conflict on a running upstream bulk operation -/

/-- C2: a sync `POST` issued while the upstream current bulk operation is
`RUNNING` or `CREATED` is answered 409 with status `pending` and the
existing operation's id; `startOrdersBulk` is not called and the orders
collection is unchanged. -/
theorem ordersSyncPOST_conflict_409 (env : SyncEnv) (db : List StoredOrder)
    (doc : Option BulkStateDoc) (cache : BulkStateCache)
    (nowIso : String) (nowMs : Nat) (failAt : Option Nat)
    (op : BulkOperationStatus) (hop : env.currentOp = some op)
    (hst : asciiUpper op.status = "RUNNING" ∨ asciiUpper op.status = "CREATED") :
    (ordersSyncPOST env db doc cache nowIso nowMs failAt).response.httpStatus = 409 ∧
    (ordersSyncPOST env db doc cache nowIso nowMs failAt).response.status = some .pending ∧
    (ordersSyncPOST env db doc cache nowIso nowMs failAt).response.operationId = some op.id ∧
    (ordersSyncPOST env db doc cache nowIso nowMs failAt).bulkStarted = none ∧
    (ordersSyncPOST env db doc cache nowIso nowMs failAt).db = db := by
  simp [ordersSyncPOST, hop, hst]

/-- The environment of the conflict witness: an upstream bulk operation in
status `RUNNING`. -/
def envConflict : SyncEnv :=
  { currentOp := some { id := "gid-op-9", status := "RUNNING", url := none }
    lastSyncAt := some "2024-01-01T00:00:00Z"
    pages := []
    resyncResult := none
    newBulkOpId := "gid-op-3" }

/-- The empty module-level cache at process start. -/
def cache0 : BulkStateCache :=
  { cachedBulkState := none, cachedBulkStateAt := 0 }

/-- Witness for C2 at a concrete conflicting environment. -/
theorem ordersSyncPOST_conflict_409_witness :
    (ordersSyncPOST envConflict [] none cache0 "t" 0 none).response.httpStatus = 409 ∧
    (ordersSyncPOST envConflict [] none cache0 "t" 0 none).response.status = some .pending ∧
    (ordersSyncPOST envConflict [] none cache0 "t" 0 none).response.operationId = some "gid-op-9" ∧
    (ordersSyncPOST envConflict [] none cache0 "t" 0 none).bulkStarted = none ∧
    (ordersSyncPOST envConflict [] none cache0 "t" 0 none).db = [] :=
  ordersSyncPOST_conflict_409 envConflict [] none cache0 "t" 0 none
    { id := "gid-op-9", status := "RUNNING", url := none } rfl (Or.inl (by decide))

/-! ## C1 — sync strategy selection -/

/-- When no batch throws, the write loop reports success. -/
theorem runBatchWritesFrom_none_ok (now : String) :
    ∀ (batches : List (List Order)) (db : List StoredOrder) (i : Nat),
      (runBatchWritesFrom now none db batches i).2 = true := by
  intro batches
  induction batches with
  | nil => intro db i; simp [runBatchWritesFrom]
  | cons b rest ih => intro db i; simp [runBatchWritesFrom, ih]

/-- `runBatchWrites` with no failing batch reports success. -/
theorem runBatchWrites_none_ok (db : List StoredOrder)
    (batches : List (List Order)) (now : String) :
    (runBatchWrites db batches now none).2 = true :=
  runBatchWritesFrom_none_ok now batches db 0

/-- C1: for a sync `POST` with no upstream bulk operation `RUNNING` or
`CREATED`: with no stored watermark the handler starts an *unscoped* bulk
job and answers 202 pending with method `bulk`; with a watermark and
`countOrdersSinceDate(lastSyncAt, 100) > 100` it starts a bulk job *scoped
to the watermark* and answers 202 pending `bulk`; with a count of at most
100 (and no write failure) it runs the incremental fetch synchronously and
answers 200 with method `incremental` and the synced / new / updated
counts. -/
theorem ordersSyncPOST_strategy_selection (env : SyncEnv)
    (db : List StoredOrder) (doc : Option BulkStateDoc)
    (cache : BulkStateCache) (nowIso : String) (nowMs : Nat)
    (failAt : Option Nat)
    (hop : ∀ op, env.currentOp = some op →
      asciiUpper op.status ≠ "RUNNING" ∧ asciiUpper op.status ≠ "CREATED") :
    (env.lastSyncAt = none →
      (ordersSyncPOST env db doc cache nowIso nowMs failAt).bulkStarted = some none ∧
      (ordersSyncPOST env db doc cache nowIso nowMs failAt).response.httpStatus = 202 ∧
      (ordersSyncPOST env db doc cache nowIso nowMs failAt).response.status = some .pending ∧
      (ordersSyncPOST env db doc cache nowIso nowMs failAt).response.method = some "bulk" ∧
      (ordersSyncPOST env db doc cache nowIso nowMs failAt).response.operationId =
        some env.newBulkOpId) ∧
    (∀ w, env.lastSyncAt = some w →
      100 < countOrdersSinceDate env.pages 100 →
      (ordersSyncPOST env db doc cache nowIso nowMs failAt).bulkStarted = some (some w) ∧
      (ordersSyncPOST env db doc cache nowIso nowMs failAt).response.httpStatus = 202 ∧
      (ordersSyncPOST env db doc cache nowIso nowMs failAt).response.status = some .pending ∧
      (ordersSyncPOST env db doc cache nowIso nowMs failAt).response.method = some "bulk") ∧
    (∀ w, env.lastSyncAt = some w →
      countOrdersSinceDate env.pages 100 ≤ 100 → failAt = none →
      (ordersSyncPOST env db doc cache nowIso nowMs failAt).response.httpStatus = 200 ∧
      (ordersSyncPOST env db doc cache nowIso nowMs failAt).response.method =
        some "incremental" ∧
      (ordersSyncPOST env db doc cache nowIso nowMs failAt).response.synced =
        some (syncUniqueOrders env db).length ∧
      (ordersSyncPOST env db doc cache nowIso nowMs failAt).response.newCount =
        some (syncNewCount env db) ∧
      (ordersSyncPOST env db doc cache nowIso nowMs failAt).response.updatedCount =
        some (syncUpdatedCount env db) ∧
      (ordersSyncPOST env db doc cache nowIso nowMs failAt).bulkStarted = none) := by
  have hrun : ordersSyncPOST env db doc cache nowIso nowMs failAt =
      ordersSyncRun env db doc cache nowIso nowMs failAt := by
    cases hcur : env.currentOp with
    | none => simp [ordersSyncPOST, hcur]
    | some op =>
      have h := hop op hcur
      simp [ordersSyncPOST, hcur, h.1, h.2]
  rw [hrun]
  refine ⟨fun hnone => ?_, fun w hw hgt => ?_, fun w hw hle hfail => ?_⟩
  · simp [ordersSyncRun, hnone]
  · simp [ordersSyncRun, hw, hgt]
  · have hnotgt : ¬ 100 < countOrdersSinceDate env.pages 100 := not_lt.mpr hle
    subst hfail
    simp [ordersSyncRun, hw, hnotgt, runBatchWrites_none_ok]

/-- The first-run environment of the C1 witness: no upstream operation and
no stored watermark. -/
def envFirstSync : SyncEnv :=
  { currentOp := none
    lastSyncAt := none
    pages := []
    resyncResult := none
    newBulkOpId := "gid-op-1" }

/-- Witness for C1: on a first run the handler starts an unscoped bulk job
and answers 202 pending with method `bulk`. -/
theorem ordersSyncPOST_strategy_selection_witness :
    (ordersSyncPOST envFirstSync [] none cache0 "t" 0 none).bulkStarted = some none ∧
    (ordersSyncPOST envFirstSync [] none cache0 "t" 0 none).response.httpStatus = 202 ∧
    (ordersSyncPOST envFirstSync [] none cache0 "t" 0 none).response.status = some .pending ∧
    (ordersSyncPOST envFirstSync [] none cache0 "t" 0 none).response.method = some "bulk" ∧
    (ordersSyncPOST envFirstSync [] none cache0 "t" 0 none).response.operationId =
      some "gid-op-1" :=
  (ordersSyncPOST_strategy_selection envFirstSync [] none cache0 "t" 0 none
    (fun _ h => nomatch h)).1 rfl

/-! ## C4 — the watermark only advances after successful batch writes -/

/-- Watermark behaviour of the post-conflict-check sync run: it advances
exactly when every batch write of the incremental path succeeded, and an
unadvanced watermark keeps its initial value. -/
theorem ordersSyncRun_watermark (env : SyncEnv) (db : List StoredOrder)
    (doc : Option BulkStateDoc) (cache : BulkStateCache) (nowIso : String)
    (nowMs : Nat) (failAt : Option Nat) :
    ((ordersSyncRun env db doc cache nowIso nowMs failAt).watermarkAdvanced = false →
      (ordersSyncRun env db doc cache nowIso nowMs failAt).lastSyncAt = env.lastSyncAt) ∧
    ((ordersSyncRun env db doc cache nowIso nowMs failAt).watermarkAdvanced = true →
      (runBatchWrites db (chunkList 1000 (syncUniqueOrders env db)) nowIso failAt).2 = true ∧
      (ordersSyncRun env db doc cache nowIso nowMs failAt).lastSyncAt = some nowIso) := by
  cases hl : env.lastSyncAt with
  | none => simp [ordersSyncRun, hl]
  | some w =>
    by_cases hc : 100 < countOrdersSinceDate env.pages 100
    · simp [ordersSyncRun, hl, hc]
    · by_cases hwr :
        (runBatchWrites db (chunkList 1000 (syncUniqueOrders env db)) nowIso failAt).2 = true
      · simp [ordersSyncRun, hl, hc, hwr]
      · rw [Bool.not_eq_true] at hwr
        simp [ordersSyncRun, hl, hc, hwr]

/-- Watermark behaviour of the full sync `POST` (conflict branch included). -/
theorem ordersSyncPOST_watermark (env : SyncEnv) (db : List StoredOrder)
    (doc : Option BulkStateDoc) (cache : BulkStateCache) (nowIso : String)
    (nowMs : Nat) (failAt : Option Nat) :
    ((ordersSyncPOST env db doc cache nowIso nowMs failAt).watermarkAdvanced = false →
      (ordersSyncPOST env db doc cache nowIso nowMs failAt).lastSyncAt = env.lastSyncAt) ∧
    ((ordersSyncPOST env db doc cache nowIso nowMs failAt).watermarkAdvanced = true →
      (runBatchWrites db (chunkList 1000 (syncUniqueOrders env db)) nowIso failAt).2 = true ∧
      (ordersSyncPOST env db doc cache nowIso nowMs failAt).lastSyncAt = some nowIso) := by
  cases hcur : env.currentOp with
  | none =>
    have he : ordersSyncPOST env db doc cache nowIso nowMs failAt =
        ordersSyncRun env db doc cache nowIso nowMs failAt := by
      simp [ordersSyncPOST, hcur]
    rw [he]
    exact ordersSyncRun_watermark env db doc cache nowIso nowMs failAt
  | some op =>
    by_cases hst : asciiUpper op.status = "RUNNING" ∨ asciiUpper op.status = "CREATED"
    · constructor
      · intro _
        simp [ordersSyncPOST, hcur, hst]
      · intro h
        exfalso
        simp [ordersSyncPOST, hcur, hst] at h
    · have he : ordersSyncPOST env db doc cache nowIso nowMs failAt =
          ordersSyncRun env db doc cache nowIso nowMs failAt := by
        simp [ordersSyncPOST, hcur, hst]
      rw [he]
      exact ordersSyncRun_watermark env db doc cache nowIso nowMs failAt

/-- C4: in the incremental sync path and in the bulk finalization path the
watermark write runs only after every batch upsert succeeded; whenever a
batch write throws (or the bulk download throws), `lastSyncAt` keeps its
previous value. -/
theorem watermark_advances_only_after_batch_success (env : SyncEnv)
    (db : List StoredOrder) (doc : Option BulkStateDoc)
    (cache : BulkStateCache) (nowIso : String) (nowMs : Nat)
    (failAt : Option Nat) (opId : String) (orders : List Order)
    (db2 : List StoredOrder) (lsa : Option String)
    (doc2 : Option BulkStateDoc) :
    ((ordersSyncPOST env db doc cache nowIso nowMs failAt).watermarkAdvanced = false →
      (ordersSyncPOST env db doc cache nowIso nowMs failAt).lastSyncAt = env.lastSyncAt) ∧
    ((ordersSyncPOST env db doc cache nowIso nowMs failAt).watermarkAdvanced = true →
      (runBatchWrites db (chunkList 1000 (syncUniqueOrders env db)) nowIso failAt).2 = true ∧
      (ordersSyncPOST env db doc cache nowIso nowMs failAt).lastSyncAt = some nowIso) ∧
    ((finalizeBulk opId (some orders) failAt db2 lsa doc2 nowIso nowMs).watermarkAdvanced = false →
      (finalizeBulk opId (some orders) failAt db2 lsa doc2 nowIso nowMs).lastSyncAt = lsa) ∧
    ((finalizeBulk opId (some orders) failAt db2 lsa doc2 nowIso nowMs).watermarkAdvanced = true →
      (runBatchWrites db2 (chunkList 1000 orders) nowIso failAt).2 = true ∧
      (finalizeBulk opId (some orders) failAt db2 lsa doc2 nowIso nowMs).lastSyncAt = some nowIso) ∧
    ((finalizeBulk opId none failAt db2 lsa doc2 nowIso nowMs).watermarkAdvanced = false ∧
      (finalizeBulk opId none failAt db2 lsa doc2 nowIso nowMs).lastSyncAt = lsa) := by
  refine ⟨(ordersSyncPOST_watermark env db doc cache nowIso nowMs failAt).1,
          (ordersSyncPOST_watermark env db doc cache nowIso nowMs failAt).2,
          ?_, ?_, ?_⟩
  · intro hadv
    by_cases hwr : (runBatchWrites db2 (chunkList 1000 orders) nowIso failAt).2 = true
    · simp [finalizeBulk, hwr] at hadv
    · rw [Bool.not_eq_true] at hwr
      simp [finalizeBulk, hwr]
  · intro hadv
    by_cases hwr : (runBatchWrites db2 (chunkList 1000 orders) nowIso failAt).2 = true
    · exact ⟨hwr, by simp [finalizeBulk, hwr]⟩
    · rw [Bool.not_eq_true] at hwr
      simp [finalizeBulk, hwr] at hadv
  · constructor <;> simp [finalizeBulk]

/-- The incremental environment of the C4 witness: a watermark and one
upstream page of one changed order. -/
def envIncr : SyncEnv :=
  { currentOp := none
    lastSyncAt := some "2024-01-01T00:00:00Z"
    pages := [[sampleOrder]]
    resyncResult := none
    newBulkOpId := "gid-op-2" }

/-- Witness for C4: with the first (and only) batch write failing, the
watermark keeps its previous value. -/
theorem watermark_advances_only_after_batch_success_witness :
    (ordersSyncPOST envIncr [] none cache0 "t" 0 (some 0)).watermarkAdvanced = false ∧
    (ordersSyncPOST envIncr [] none cache0 "t" 0 (some 0)).lastSyncAt =
      some "2024-01-01T00:00:00Z" :=
  ⟨by decide,
   (watermark_advances_only_after_batch_success envIncr [] none cache0 "t" 0
      (some 0) "gid-op-2" [] [] none none).1 (by decide)⟩

/-! ## C10 — partial `$set` of the bulk state vs the replaced cache -/

/-- Persisted `sync_state` left by a finished earlier bulk run: idle with a
finalized `synced` count. -/
def staleDoc0 : BulkStateDoc :=
  { status := .idle
    operationId := none
    updatedAt := "2026-10-01T00:00:00Z"
    synced := some 42 }

/-- The patch a new sync start writes: `{status: "pending", operationId}`,
with the `synced` key omitted. -/
def stalePatch : BulkStatePatch :=
  { status := some .pending
    operationId := some (some "gid-op-7")
    synced := none }

/-- The stores after the new bulk sync start (`updateBulkSyncState` at
cache time 1000 ms). -/
def stalePendingWrite : Option BulkStateDoc × BulkStateCache :=
  updateBulkSyncState (some staleDoc0) stalePatch "2026-10-01T01:00:00Z" 1000

/-- The newly completed upstream operation of the stale scenario. -/
def staleOp : BulkOperationStatus :=
  { id := "gid-op-7"
    status := "COMPLETED"
    url := some "https://example.com/bulk-result.jsonl" }

/-- C10: `updateBulkSyncState` `$set`s only the supplied fields (plus the
defaulted status and `updatedAt`), leaving an omitted `synced` (and an
omitted `operationId`) in place in the document while the replaced
in-memory cache lacks the omitted field; consequently, in the concrete
execution where a prior run stored `synced = 42` and a new bulk sync writes
`{status: pending, operationId}`, a read after the 60-second TTL returns
`pending` with the stale `synced = 42`, and the bulk status check then
answers `idle` with the stale count and never spawns finalization for the
newly completed operation. -/
theorem bulk_state_partial_update_stale_finalization :
    (∀ (d : BulkStateDoc) (p : BulkStatePatch) (nowIso : String),
      p.synced = none →
      (applyBulkStateSet (some d) p nowIso).synced = d.synced) ∧
    (∀ (d : BulkStateDoc) (p : BulkStatePatch) (nowIso : String),
      p.operationId = none →
      (applyBulkStateSet (some d) p nowIso).operationId = d.operationId) ∧
    (∀ (d : Option BulkStateDoc) (p : BulkStatePatch) (nowIso : String) (nowMs : Nat),
      (updateBulkSyncState d p nowIso nowMs).2.cachedBulkState =
        some (newStateObj p nowIso) ∧
      (p.synced = none → (newStateObj p nowIso).synced = none)) ∧
    (stalePendingWrite.1 = some
      { status := .pending
        operationId := some "gid-op-7"
        updatedAt := "2026-10-01T01:00:00Z"
        synced := some 42 } ∧
     (getBulkSyncState stalePendingWrite.2 stalePendingWrite.1 61001).1.status = .pending ∧
     (getBulkSyncState stalePendingWrite.2 stalePendingWrite.1 61001).1.synced = some 42 ∧
     (bulkStatusGET stalePendingWrite.2 stalePendingWrite.1 (some staleOp) 61001
        "2026-10-01T01:01:01Z").response =
       { status := .idle, operationId := none, synced := some 42, url := none } ∧
     (bulkStatusGET stalePendingWrite.2 stalePendingWrite.1 (some staleOp) 61001
        "2026-10-01T01:01:01Z").finalizeStarted = false ∧
     (bulkStatusGET stalePendingWrite.2 stalePendingWrite.1 (some staleOp) 61001
        "2026-10-01T01:01:01Z").doc = stalePendingWrite.1) := by
  refine ⟨?_, ?_, ?_, by decide⟩
  · intro d p nowIso hs
    simp [applyBulkStateSet, hs]
  · intro d p nowIso hoid
    simp [applyBulkStateSet, hoid]
  · intro d p nowIso nowMs
    exact ⟨rfl, fun hs => by simp [newStateObj, hs]⟩

/-- Witness for C10: the frame part evaluated at the stale scenario's
document and patch. -/
theorem bulk_state_partial_update_stale_finalization_witness :
    (applyBulkStateSet (some staleDoc0) stalePatch "2026-10-01T01:00:00Z").synced =
      some 42 :=
  bulk_state_partial_update_stale_finalization.1 staleDoc0 stalePatch
    "2026-10-01T01:00:00Z" rfl

/-! ## C8 — metrics window filtering (first variant filters, second does
not) -/

/-- A stored order created long before any current metrics window. -/
def cexOldStored : StoredOrder :=
  { order :=
      { sampleOrder with
          id := "7"
          created_at := "2020-01-03T00:00:00Z"
          total_price := "7.50" }
    syncStatus := none
    syncedAt := none
    syncError := none }

/-- C8: for a window starting 2026-09-11, a stored order created
2020-01-03 (before the window start) contributes nothing in the first
`getMetricsFromDb` variant — as the claim states — but the second variant,
whose `created_at: {$gte: startDateISO}` query is commented out, counts it
in both the per-date entries and the summary totals. -/
theorem metrics_window_filter_divergence :
    strLe "2026-09-11T00:00:00.000Z" cexOldStored.order.created_at = false ∧
    (OrdersLibA.getMetricsFromDb [cexOldStored] "2026-09-11T00:00:00.000Z").metrics = [] ∧
    (OrdersLibA.getMetricsFromDb [cexOldStored] "2026-09-11T00:00:00.000Z").summary.totalOrders = 0 ∧
    (OrdersLibB.getMetricsFromDb [cexOldStored]).summary.totalOrders = 1 ∧
    (OrdersLibB.getMetricsFromDb [cexOldStored]).metrics.map (fun m => m.date) =
      ["2020-01-03"] := by
  decide

end ProtectPlus
